import Mathlib

set_option maxHeartbeats 1000000
set_option maxRecDepth 8000

/-!
Shallow embedding of the GPS path-simulation subsystem of the repository:
the engine in `simulatore/device_simulator.py` (class `GPSSimulator`) and the
supervisor route handlers `/api/simulator/start|stop|stop-all|status` in
`app.py`.  Floating-point arithmetic of the source is modeled as exact
arithmetic (`ℚ` for the purely algebraic supervisor/engine computations, `ℝ`
where the source uses transcendental functions such as `math.cos`,
`math.atan2`); transcendental library functions are passed as explicit
function parameters to keep the definitions polymorphic and are instantiated
with the genuine real functions in the theorems.  External effects (the HTTP
response of the ingestion endpoint, `subprocess.Popen` success, random noise,
wall-clock timestamps) are inputs; side effects (terminate/kill/sleep/file
writes) are returned as explicit event lists.
-/

/-! ### Python numeric primitives -/

/-- Python `int(x)` applied to a float: truncation toward zero. -/
def pyTrunc {α : Type*} [LinearOrderedField α] [FloorRing α] (x : α) : ℤ :=
  if 0 ≤ x then ⌊x⌋ else -⌊-x⌋

/-- Python `round(x)` to an integer: round half to even (banker's rounding). -/
def pyRoundInt {α : Type*} [LinearOrderedField α] [FloorRing α] (x : α) : ℤ :=
  if x - (⌊x⌋ : α) < 1/2 then ⌊x⌋
  else if (1/2 : α) < x - (⌊x⌋ : α) then ⌊x⌋ + 1
  else if ⌊x⌋ % 2 = 0 then ⌊x⌋ else ⌊x⌋ + 1

/-- Python `round(x, n)`: round half to even at `n` decimal digits. -/
def pyRound {α : Type*} [LinearOrderedField α] [FloorRing α] (x : α) (n : ℕ) : α :=
  (pyRoundInt (x * (10 : α) ^ n) : α) / (10 : α) ^ n

/-- Python `x % m` on floats (sign of the divisor; for `m > 0` the result is in `[0, m)`). -/
def pymod {α : Type*} [LinearOrderedField α] [FloorRing α] (x m : α) : α :=
  x - m * ⌊x / m⌋

/-- Python runtime errors that the modeled code can raise. -/
inductive PyErr where
  | zeroDivision
  | indexError
  deriving DecidableEq, Repr

/-- Python `a / b`, which raises `ZeroDivisionError` when `b == 0`. -/
def pydiv {α : Type*} [Field α] [DecidableEq α] (a b : α) : Except PyErr α :=
  if b = 0 then .error .zeroDivision else .ok (a / b)

/-! ### Supervisor data model (`app.py`)

The registry `simulator_processes` is a Python dict keyed by IMEI; it is
modeled as an insertion-ordered association list.  A `ProcHandle` abstracts a
`subprocess.Popen` object: `alive` is the current value of `poll() is None`,
and `exitsWithinGrace` tells whether `wait(timeout=5)` returns before the
timeout once `terminate()` has been sent. -/

structure ProcHandle where
  alive : Bool
  exitsWithinGrace : Bool
  deriving DecidableEq, Repr

/-- One registry value: the fields of the `simulator_processes[imei]` dict that
the modeled behavior depends on (`process`, `device_name`,
`temp_config_file`; the stored `start_time` and raw request `config` are
metadata never branched on and are omitted). -/
structure ProcInfo where
  handle : ProcHandle
  deviceName : String
  tempConfigFile : String
  deriving DecidableEq, Repr

/-- The supervisor's shared state: the registry dict plus the set of ephemeral
`temp_simulator_<imei>.json` files currently on disk. -/
structure SupState where
  registry : List (String × ProcInfo)
  files : List String
  deriving DecidableEq, Repr

/-- Dict lookup `d.get(k)` / `k in d` on the association list. -/
def lookupR (r : List (String × ProcInfo)) (k : String) : Option ProcInfo :=
  match r with
  | [] => Option.none
  | (k1, v) :: t => if k1 = k then some v else lookupR t k

/-- Dict assignment `d[k] = v`: replaces in place, or appends a new key. -/
def insertR (r : List (String × ProcInfo)) (k : String) (v : ProcInfo) :
    List (String × ProcInfo) :=
  match r with
  | [] => [(k, v)]
  | (k1, v1) :: t => if k1 = k then (k, v) :: t else (k1, v1) :: insertR t k v

/-- Dict deletion `del d[k]` (removes the binding of `k`, if any). -/
def eraseR (r : List (String × ProcInfo)) (k : String) : List (String × ProcInfo) :=
  match r with
  | [] => []
  | (k1, v1) :: t => if k1 = k then t else (k1, v1) :: eraseR t k

/-- Dict key view `list(d.keys())`. -/
def keysR (r : List (String × ProcInfo)) : List String :=
  r.map Prod.fst

/-- Number of registry entries stored under key `k`. -/
def countKey (r : List (String × ProcInfo)) (k : String) : ℕ :=
  (keysR r).count k

/-! ### Supervisor request/response surface -/

/-- JSON bodies produced by the simulator route handlers (identified by shape,
not by exact text). -/
inductive RespBody where
  | errFieldRequired (field : String)
  | errDeviceNotFound
  | errAlreadyRunning
  | errImeiRequired
  | errNotFound
  | errInternal
  | okStarted (imei : String)
  | okStopped (deviceName : String)
  deriving DecidableEq, Repr

/-- A Flask view return value: either a bare `jsonify(...)` response (implicit
HTTP 200) or a `(jsonify(...), code)` tuple. -/
inductive FlaskResult where
  | single (body : RespBody)
  | withStatus (body : RespBody) (code : ℕ)
  deriving DecidableEq, Repr

/-- Per-type geometry that `create_simulator_config` copies into the device
entry of the serialized configuration. -/
inductive GeoSpec where
  | circular (center_lat center_lng radius_km points : ℚ)
  | route (start_lat start_lng end_lat end_lng points : ℚ)
  | custom (path : List (ℚ × ℚ))
  | nogeo
  deriving DecidableEq, Repr

/-- One entry of the `devices` array written into the temp config file. -/
structure SimDeviceConfig where
  device_id : String
  imei : String
  update_interval : ℚ
  speed_kmh : ℚ
  simulation_type : String
  geo : GeoSpec
  deriving DecidableEq, Repr

/-- The JSON document `create_simulator_config` returns. -/
structure SimConfigFile where
  traccar_server : String
  devices : List SimDeviceConfig
  deriving DecidableEq, Repr

/-- Externally visible side effects performed by the supervisor handlers. -/
inductive SupEvent where
  | writeConfig (f : String) (cfg : SimConfigFile)
  | spawn (imei : String)
  | terminate (imei : String)
  | waitGrace (seconds : ℕ)
  | kill (imei : String)
  | removeFile (f : String)
  deriving DecidableEq, Repr

/-- The JSON body of a `/api/simulator/start` request (`request.get_json()`);
absent keys are `Option.none`. -/
structure StartData where
  device_id : Option String := Option.none
  imei : Option String := Option.none
  simulation_type : Option String := Option.none
  update_interval : Option ℚ := Option.none
  speed_kmh : Option ℚ := Option.none
  center_lat : Option ℚ := Option.none
  center_lng : Option ℚ := Option.none
  radius_km : Option ℚ := Option.none
  points : Option ℚ := Option.none
  start_lat : Option ℚ := Option.none
  start_lng : Option ℚ := Option.none
  end_lat : Option ℚ := Option.none
  end_lng : Option ℚ := Option.none
  path : Option (List (ℚ × ℚ)) := Option.none
  deriving DecidableEq, Repr

/-- Device descriptor returned by the device-directory collaborator
(`traccar_api.get_device_by_id`). -/
structure Device where
  id : String
  name : Option String
  deriving DecidableEq, Repr

/-- Python truthiness of `data.get(field)` for a string-valued field:
`None` and the empty string are falsy. -/
def truthyStr : Option String → Bool
  | Option.none => false
  | some s => s != ""

/-- Name of the ephemeral config artifact (`temp_simulator_<imei>.json`). -/
def temp_config_name (imei : String) : String :=
  "temp_simulator_" ++ imei ++ ".json"

/-- Default custom path substituted by `create_simulator_config` when the
request's custom `path` is empty or missing (`app.py` lines 1731-1738). -/
def default_custom_path : List (ℚ × ℚ) :=
  [(45.4642, 9.1900), (45.4652, 9.1920), (45.4672, 9.1950), (45.4692, 9.1980),
   (45.4642, 9.1900)]

/-- Embedding of `create_simulator_config(data, device)` (`app.py` 1692-1741). -/
def create_simulator_config (data : StartData) (device : Device) : SimConfigFile :=
  let base : SimDeviceConfig :=
    { device_id := device.id
      imei := data.imei.getD ""
      update_interval := data.update_interval.getD 30
      speed_kmh := data.speed_kmh.getD 50
      simulation_type := data.simulation_type.getD ""
      geo := .nogeo }
  let geoSel : GeoSpec :=
    if data.simulation_type.getD "" = "circular" then
      GeoSpec.circular (data.center_lat.getD 45.4642) (data.center_lng.getD 9.1900)
        (data.radius_km.getD 2) (data.points.getD 20)
    else if data.simulation_type.getD "" = "route" then
      GeoSpec.route (data.start_lat.getD 45.4642) (data.start_lng.getD 9.1900)
        (data.end_lat.getD 45.4842) (data.end_lng.getD 9.2100) (data.points.getD 50)
    else if data.simulation_type.getD "" = "custom" then
      GeoSpec.custom (if data.path.getD [] = [] then default_custom_path
        else data.path.getD [])
    else GeoSpec.nogeo
  { traccar_server := "http://localhost:8082", devices := [{ base with geo := geoSel }] }

/-- Embedding of the `/api/simulator/start` handler (`app.py` 1465-1544).
`device` is the device-directory lookup result and `spawn` the outcome of
`subprocess.Popen` (`Option.none` models a raised `SpawnFailure`, which the
handler turns into a rollback of the temp file plus an HTTP 500). -/
def api_simulator_start (data : StartData) (device : Option Device)
    (spawn : Option ProcHandle) (st : SupState) :
    FlaskResult × SupState × List SupEvent :=
  if ¬ truthyStr data.device_id then (.withStatus (.errFieldRequired "device_id") 400, st, [])
  else if ¬ truthyStr data.imei then (.withStatus (.errFieldRequired "imei") 400, st, [])
  else if ¬ truthyStr data.simulation_type then
    (.withStatus (.errFieldRequired "simulation_type") 400, st, [])
  else
    match device with
    | Option.none => (.withStatus .errDeviceNotFound 404, st, [])
    | some dev =>
      let imei := data.imei.getD ""
      let afterDup : Option (List (String × ProcInfo)) :=
        match lookupR st.registry imei with
        | Option.none => some st.registry
        | some p => if p.handle.alive then Option.none else some (eraseR st.registry imei)
      match afterDup with
      | Option.none => (.withStatus .errAlreadyRunning 409, st, [])
      | some reg1 =>
        let config := create_simulator_config data dev
        let f := temp_config_name imei
        let files1 := if f ∈ st.files then st.files else st.files ++ [f]
        match spawn with
        | Option.none =>
            (.withStatus .errInternal 500,
             { registry := reg1, files := files1.erase f }, [.writeConfig f config])
        | some h =>
            let info : ProcInfo :=
              { handle := h
                deviceName := dev.name.getD ("Device " ++ data.device_id.getD "")
                tempConfigFile := f }
            (.single (.okStarted imei),
             { registry := insertR reg1 imei info, files := files1 },
             [.writeConfig f config, .spawn imei])

/-- Embedding of the `/api/simulator/stop` handler (`app.py` 1547-1604).
`reqImei` is `data.get('imei')` from the request body of the *current* Flask
request (`Option.none` also covers a missing/unparsable JSON body, which the
handler's outer `except` turns into a non-200 tuple as well); the
`if not imei` guard rejects a missing *or empty* (falsy) imei with 400. -/
def api_simulator_stop (reqImei : Option String) (st : SupState) :
    FlaskResult × SupState × List SupEvent :=
  if ¬ truthyStr reqImei then (.withStatus .errImeiRequired 400, st, [])
  else
    let imei := reqImei.getD ""
    match lookupR st.registry imei with
    | Option.none => (.withStatus .errNotFound 404, st, [])
    | some p =>
      let evs1 := [SupEvent.terminate imei] ++
        (if p.handle.exitsWithinGrace then [SupEvent.waitGrace 5]
         else [SupEvent.waitGrace 5, SupEvent.kill imei])
      let doRemove := p.tempConfigFile != "" && st.files.contains p.tempConfigFile
      let evs2 := if doRemove then [SupEvent.removeFile p.tempConfigFile] else []
      (.single (.okStopped p.deviceName),
       { registry := eraseR st.registry imei,
         files := if doRemove then st.files.erase p.tempConfigFile else st.files },
       evs1 ++ evs2)

/-- One iteration of the `stop-all` loop body (`app.py` 1620-1629): the code
calls the view function `api_simulator_stop()` directly, so the nested handler
re-reads the *stop-all* request's own body (`reqImei`), not the loop's `imei`;
then it evaluates `result[1] == 200`, which raises `TypeError` when the nested
call returned a bare success `Response` instead of a `(response, code)` tuple. -/
def stopAllStep (reqImei : Option String)
    (acc : ℕ × List String × SupState × List SupEvent) (imei : String) :
    ℕ × List String × SupState × List SupEvent :=
  match acc with
  | (cnt, errs, s, evs) =>
    match api_simulator_stop reqImei s with
    | (res, s1, evs1) =>
      match res with
      | .withStatus _ code =>
          if code = 200 then (cnt + 1, errs, s1, evs ++ evs1)
          else (cnt, errs ++ ["Errore fermando " ++ imei], s1, evs ++ evs1)
      | .single _ =>
          (cnt, errs ++ ["Errore fermando " ++ imei ++ ": TypeError"], s1, evs ++ evs1)

/-- Embedding of the `/api/simulator/stop-all` handler (`app.py` 1607-1639):
folds the stop-one step over a snapshot of the registry keys, returning
`(stopped_count, errors, state, events)`. -/
def api_simulator_stop_all (reqImei : Option String) (st : SupState) :
    ℕ × List String × SupState × List SupEvent :=
  (keysR st.registry).foldl (stopAllStep reqImei) (0, [], st, [])

/-- Embedding of the `/api/simulator/status` handler (`app.py` 1429-1462):
returns `(imei, device_name)` for each live entry and prunes dead entries from
the registry as a side effect. -/
def api_simulator_status (st : SupState) : List (String × String) × SupState :=
  let live := st.registry.filter (fun kv => kv.2.handle.alive)
  (live.map (fun kv => (kv.1, kv.2.deviceName)), { registry := live, files := st.files })

/-! ### Engine data model (`simulatore/device_simulator.py`, class `GPSSimulator`)

The engine definitions are polymorphic over a linear ordered field `α` with a
floor; the transcendental library functions (`math.cos`, `math.sin`,
`math.sqrt`, `math.atan2`) and the constant `math.pi` are explicit parameters,
instantiated with the genuine real functions below. -/

/-- The configuration fields of one `GPSSimulator` that the modeled behavior
reads (`device_imei`, `update_interval`, `speed_kmh`). -/
structure EngineConfig (α : Type*) where
  device_imei : String
  update_interval : α
  speed_kmh : α

/-- The mutable per-simulator state (`self.current_*`, statistics and the
cooperative `is_running` flag). -/
structure SimState (α : Type*) where
  current_lat : α
  current_lng : α
  current_altitude : α
  current_course : α
  current_position_index : ℕ
  total_distance : α
  packets_sent : ℕ
  packets_failed : ℕ
  is_running : Bool

/-- Result of the HTTP GET to the ingestion endpoint: an answer with some
status code, or any exception raised by the network call. -/
inductive HttpOutcome where
  | response (status : ℤ)
  | exception
  deriving DecidableEq, Repr

/-- The Osmand wire-protocol query parameters built by
`send_position_to_traccar` (`device_simulator.py` 204-215). -/
structure OsmandParams (α : Type*) where
  id : String
  lat : α
  lon : α
  altitude : ℤ
  course : ℤ
  speed : α
  timestamp : ℤ
  hdop : α
  sat : ℕ
  valid : String

/-- Embedding of `send_position_to_traccar` (`device_simulator.py` 180-243):
encodes the sample, performs one request (its result is the `outcome` input),
updates the success/failure counters and returns the boolean outcome together
with the request parameters it sent.  Every branch returns normally: the
`except` clause absorbs any exception of the `try` body. -/
def send_position_to_traccar {α : Type*} [LinearOrderedField α] [FloorRing α]
    (cfg : EngineConfig α) (st : SimState α) (lat lng altitude course speed : α)
    (timestamp : ℤ) (outcome : HttpOutcome) :
    Bool × SimState α × OsmandParams α :=
  let params : OsmandParams α :=
    { id := cfg.device_imei
      lat := pyRound lat 6
      lon := pyRound lng 6
      altitude := pyTrunc altitude
      course := pyTrunc course
      speed := pyRound (speed * (539957 / 1000000 : α)) 2
      timestamp := timestamp
      hdop := 1
      sat := 8
      valid := "true" }
  match outcome with
  | .response s =>
      if s = 200 then (true, { st with packets_sent := st.packets_sent + 1 }, params)
      else (false, { st with packets_failed := st.packets_failed + 1 }, params)
  | .exception => (false, { st with packets_failed := st.packets_failed + 1 }, params)

/-- Embedding of `interpolate_position` (`device_simulator.py` 167-178). -/
def interpolate_position {α : Type*} [Field α] (start finish : α × α) (progress : α) :
    α × α :=
  (start.1 + (finish.1 - start.1) * progress, start.2 + (finish.2 - start.2) * progress)

/-- Embedding of `calculate_distance` (`device_simulator.py` 129-146), the
haversine distance with Earth radius 6371 km, over parameterized trig. -/
def calculate_distance {α : Type*} [Field α] (cosf sinf sqrtf : α → α)
    (atan2f : α → α → α) (piA : α) (lat1 lng1 lat2 lng2 : α) : α :=
  let lat1_rad := lat1 * piA / 180
  let lat2_rad := lat2 * piA / 180
  let delta_lat := (lat2 - lat1) * piA / 180
  let delta_lng := (lng2 - lng1) * piA / 180
  let a := sinf (delta_lat / 2) ^ 2 + cosf lat1_rad * cosf lat2_rad * sinf (delta_lng / 2) ^ 2
  let c := 2 * atan2f (sqrtf a) (sqrtf (1 - a))
  6371 * c

/-- Embedding of `calculate_bearing` (`device_simulator.py` 148-165): initial
bearing via `atan2`, converted to degrees and normalized with `(b + 360) % 360`. -/
def calculate_bearing {α : Type*} [LinearOrderedField α] [FloorRing α]
    (cosf sinf : α → α) (atan2f : α → α → α) (piA : α)
    (lat1 lng1 lat2 lng2 : α) : α :=
  let lat1_rad := lat1 * piA / 180
  let lat2_rad := lat2 * piA / 180
  let delta_lng_rad := (lng2 - lng1) * piA / 180
  let y := sinf delta_lng_rad * cosf lat2_rad
  let x := cosf lat1_rad * sinf lat2_rad - sinf lat1_rad * cosf lat2_rad * cosf delta_lng_rad
  let bearing := atan2f y x * 180 / piA
  pymod (bearing + 360) 360

/-- Embedding of `generate_circular_path` (`device_simulator.py` 66-93):
`points + 1` waypoints at angles `2*pi*i/points` around the center, with the
km-to-degree scales `radius/111.32` and `radius/(111.32*cos(lat))`. -/
def generate_circular_path {α : Type*} [Field α] (cosf sinf : α → α) (piA : α)
    (center_lat center_lng radius_km : α) (points : ℕ) : List (α × α) :=
  (List.range (points + 1)).map (fun (i : ℕ) =>
    let angle := 2 * piA * (i : α) / (points : α)
    let lat_offset := radius_km / (11132 / 100 : α)
    let lng_offset := radius_km / ((11132 / 100 : α) * cosf (center_lat * piA / 180))
    (center_lat + lat_offset * cosf angle, center_lng + lng_offset * sinf angle))

/-- The tick count of `simulate_movement` (`device_simulator.py` 276-278):
`time_to_next = distance/speed*3600`; `steps = max(1, int(time_to_next/interval))`.
Both divisions raise `ZeroDivisionError` on a zero divisor. -/
def stepsNeededE {α : Type*} [LinearOrderedField α] [FloorRing α] [DecidableEq α]
    (distance_km speed_kmh update_interval : α) : Except PyErr ℤ :=
  match pydiv distance_km speed_kmh with
  | .error e => .error e
  | .ok q =>
    match pydiv (q * 3600) update_interval with
    | .error e => .error e
    | .ok s => .ok (max 1 (pyTrunc s))

/-- Per-step environment inputs: the four `random.uniform` draws and the
network outcome of the step's report. -/
structure StepEnv (α : Type*) where
  noise_lat : α
  noise_lng : α
  noise_alt : α
  noise_speed : α
  outcome : HttpOutcome

/-- Observable actions of the movement loop. -/
inductive EngineEvent (α : Type*) where
  | report (success : Bool)
  | sleepFor (seconds : α)

/-- One step of the inner `for step in range(steps_needed)` loop
(`device_simulator.py` 285-318): interpolate, add noise, send, update the
state only on success, then sleep for `update_interval`. -/
def simStepBody {α : Type*} [LinearOrderedField α] [FloorRing α]
    (bearingf : α → α → α → α → α) (cfg : EngineConfig α) (current next : α × α)
    (distance_km : α) (steps_needed : ℕ) (step : ℕ) (timestamp : ℤ)
    (env : StepEnv α) (st : SimState α) : SimState α × List (EngineEvent α) :=
  let progress := (step : α) / (steps_needed : α)
  let p := interpolate_position current next progress
  let course := bearingf current.1 current.2 next.1 next.2
  let lat := p.1 + env.noise_lat
  let lng := p.2 + env.noise_lng
  let altitude := st.current_altitude + env.noise_alt
  let speed_with_noise := max 0 (cfg.speed_kmh + env.noise_speed)
  let r := send_position_to_traccar cfg st lat lng altitude course speed_with_noise
    timestamp env.outcome
  let st2 :=
    if r.1 then
      { r.2.1 with current_lat := lat, current_lng := lng, current_altitude := altitude,
                   current_course := course,
                   total_distance := r.2.1.total_distance + distance_km / (steps_needed : α) }
    else r.2.1
  (st2, [.report r.1, .sleepFor cfg.update_interval])

/-- The inner `for` loop over `range(steps_needed)` with its cooperative
`if not self.is_running: break` check (`device_simulator.py` 281-318); once
the flag is false the remaining iterations do nothing. -/
def simStepsFor {α : Type*} [LinearOrderedField α] [FloorRing α]
    (bearingf : α → α → α → α → α) (cfg : EngineConfig α) (current next : α × α)
    (distance_km : α) (steps_needed : ℕ) (timestamp : ℤ) (envs : ℕ → StepEnv α)
    (st : SimState α) : SimState α × List (EngineEvent α) :=
  (List.range steps_needed).foldl
    (fun acc step =>
      if acc.1.is_running then
        let r := simStepBody bearingf cfg current next distance_km steps_needed step
          timestamp (envs step) acc.1
        (r.1, acc.2 ++ r.2)
      else acc)
    (st, [])

/-- One iteration of the outer `while self.is_running` loop
(`device_simulator.py` 258-325): wrap the waypoint index, read the segment,
compute distance and tick count, run the inner loop, advance the index.  Any
exception (`ZeroDivisionError` from the tick count, `IndexError` from the
path access) is absorbed by the per-iteration handler, which sleeps for one
interval; the index wrap that already happened persists. -/
def loopIter {α : Type*} [LinearOrderedField α] [FloorRing α] [DecidableEq α]
    (distf bearingf : α → α → α → α → α) (cfg : EngineConfig α) (path : List (α × α))
    (timestamp : ℤ) (envs : ℕ → StepEnv α) (st : SimState α) :
    SimState α × List (EngineEvent α) :=
  let idx := if st.current_position_index ≥ path.length - 1 then 0
             else st.current_position_index
  let st0 := { st with current_position_index := idx }
  match path[idx]?, path[idx + 1]? with
  | some current, some next =>
      let distance_km := distf current.1 current.2 next.1 next.2
      match stepsNeededE distance_km cfg.speed_kmh cfg.update_interval with
      | .error _ => (st0, [.sleepFor cfg.update_interval])
      | .ok steps =>
          let r := simStepsFor bearingf cfg current next distance_km steps.toNat
            timestamp envs st0
          ({ r.1 with current_position_index := r.1.current_position_index + 1 }, r.2)
  | _, _ => (st0, [.sleepFor cfg.update_interval])

/-- Iterated outer loop: `n` iterations of the `while self.is_running` body
(or fewer, if the flag is observed false).  `envs k` supplies the random draws
and network outcomes of the iteration executed when `k` iterations remain. -/
def simulate_movement_iter {α : Type*} [LinearOrderedField α] [FloorRing α] [DecidableEq α]
    (distf bearingf : α → α → α → α → α) (cfg : EngineConfig α) (path : List (α × α))
    (timestamp : ℤ) (envs : ℕ → ℕ → StepEnv α) (n : ℕ) (st : SimState α) :
    SimState α × List (EngineEvent α) :=
  match n with
  | 0 => (st, [])
  | Nat.succ m =>
      if st.is_running then
        let r := loopIter distf bearingf cfg path timestamp (envs (Nat.succ m)) st
        let r2 := simulate_movement_iter distf bearingf cfg path timestamp envs m r.1
        (r2.1, r.2 ++ r2.2)
      else (st, [])

/-- Embedding of `simulate_movement` (`device_simulator.py` 245-325) observed
for `n` iterations of its `while` loop: with an empty path the function logs
and returns immediately without entering the loop. -/
def simulate_movement {α : Type*} [LinearOrderedField α] [FloorRing α] [DecidableEq α]
    (distf bearingf : α → α → α → α → α) (cfg : EngineConfig α) (path : List (α × α))
    (timestamp : ℤ) (envs : ℕ → ℕ → StepEnv α) (n : ℕ) (st : SimState α) :
    SimState α × List (EngineEvent α) :=
  if path.isEmpty then (st, [])
  else simulate_movement_iter distf bearingf cfg path timestamp envs n st

/-! ### Real-number instantiation of the transcendental parameters -/

/-- Python `math.atan2 y x`, modeled as the argument of the complex number
`x + y*i`, which lies in `(-pi, pi]` and is `0` at the origin. -/
noncomputable def atan2R (y x : ℝ) : ℝ :=
  Complex.arg ⟨x, y⟩

/-- `calculate_distance` with the genuine real functions. -/
noncomputable def calculate_distanceR : ℝ → ℝ → ℝ → ℝ → ℝ :=
  calculate_distance Real.cos Real.sin Real.sqrt atan2R Real.pi

/-- `calculate_bearing` with the genuine real functions. -/
noncomputable def calculate_bearingR : ℝ → ℝ → ℝ → ℝ → ℝ :=
  calculate_bearing Real.cos Real.sin atan2R Real.pi

/-- `generate_circular_path` with the genuine real functions. -/
noncomputable def generate_circular_pathR (center_lat center_lng radius_km : ℝ)
    (points : ℕ) : List (ℝ × ℝ) :=
  generate_circular_path Real.cos Real.sin Real.pi center_lat center_lng radius_km points

/-! ### Concrete engine inputs and the spec-side tick formula -/

/-- The tick-count formula exactly as the specification words it:
`max(1, round((distance / speed * 3600) / interval))` with Python
round-half-even.  Spec-side definition, present only to be compared with the
code's computation `stepsNeededE`. -/
def steps_spec_rounded {α : Type*} [LinearOrderedField α] [FloorRing α]
    (distance_km speed_kmh update_interval : α) : ℤ :=
  max 1 (pyRoundInt (distance_km / speed_kmh * 3600 / update_interval))

/-- A concrete engine state used as input by the engine claim theorems. -/
def stR0 : SimState ℝ :=
  { current_lat := 0, current_lng := 0, current_altitude := 100, current_course := 0,
    current_position_index := 0, total_distance := 0, packets_sent := 0,
    packets_failed := 0, is_running := true }

/-- A concrete engine configuration. -/
def cfgR : EngineConfig ℝ :=
  { device_imei := "123456789012345", update_interval := 30, speed_kmh := 50 }

/-- A per-step environment with zero noise and a failing network call. -/
def envFail : StepEnv ℝ :=
  { noise_lat := 0, noise_lng := 0, noise_alt := 0, noise_speed := 0,
    outcome := .exception }

/-- An engine configuration with speed 0. -/
def cfgZeroSpeed : EngineConfig ℝ :=
  { device_imei := "123456789012345", update_interval := 30, speed_kmh := 0 }

/-- A two-waypoint path. -/
def pathTwo : List (ℝ × ℝ) := [(0, 0), (1, 1)]

/-! ### Registry helper lemmas -/

lemma eraseR_sublist (r : List (String × ProcInfo)) (k : String) :
    (eraseR r k).Sublist r := by
  induction r with
  | nil => simp [eraseR]
  | cons a t ih =>
    obtain ⟨k1, v1⟩ := a
    by_cases h : k1 = k
    · simp only [eraseR, if_pos h]
      exact List.sublist_cons_self _ _
    · simp only [eraseR, if_neg h]
      exact ih.cons₂ _

lemma lookupR_mem_keysR {r : List (String × ProcInfo)} {k : String} {p : ProcInfo}
    (h : lookupR r k = some p) : k ∈ keysR r := by
  induction r with
  | nil => simp [lookupR] at h
  | cons a t ih =>
    by_cases h1 : a.1 = k
    · simp [keysR, h1]
    · simp only [lookupR, h1, if_false] at h
      simpa [keysR] using Or.inr (ih h)

lemma mem_keysR_insertR {r : List (String × ProcInfo)} {k a : String} {v : ProcInfo} :
    a ∈ keysR (insertR r k v) ↔ a ∈ keysR r ∨ a = k := by
  induction r with
  | nil => simp [insertR, keysR]
  | cons b t ih =>
    obtain ⟨k1, v1⟩ := b
    by_cases h1 : k1 = k
    · subst h1
      simp [insertR, keysR]
      tauto
    · simp only [insertR, if_neg h1, keysR, List.map_cons, List.mem_cons] at ih ⊢
      rw [or_assoc]
      exact or_congr Iff.rfl ih

lemma keysR_insertR_nodup {r : List (String × ProcInfo)} {k : String} {v : ProcInfo}
    (h : (keysR r).Nodup) : (keysR (insertR r k v)).Nodup := by
  induction r with
  | nil => simp [insertR, keysR]
  | cons b t ih =>
    obtain ⟨k1, v1⟩ := b
    simp only [keysR, List.map_cons, List.nodup_cons] at h
    by_cases h1 : k1 = k
    · subst h1
      simpa [insertR, keysR, List.nodup_cons] using h
    · have h2 := ih h.2
      simp only [insertR, if_neg h1, keysR, List.map_cons, List.nodup_cons]
      refine ⟨fun hmem => ?_, h2⟩
      rcases mem_keysR_insertR.mp hmem with h3 | h3
      · exact h.1 h3
      · exact h1 h3

lemma lookupR_insertR_self (r : List (String × ProcInfo)) (k : String) (v : ProcInfo) :
    lookupR (insertR r k v) k = some v := by
  induction r with
  | nil => simp [insertR, lookupR]
  | cons b t ih =>
    obtain ⟨k1, v1⟩ := b
    by_cases h1 : k1 = k
    · simp [insertR, h1, lookupR]
    · simp [insertR, h1, lookupR, ih]

lemma not_mem_keysR_eraseR {r : List (String × ProcInfo)} {k : String}
    (h : (keysR r).Nodup) : k ∉ keysR (eraseR r k) := by
  induction r with
  | nil => simp [eraseR, keysR]
  | cons b t ih =>
    obtain ⟨k1, v1⟩ := b
    simp only [keysR, List.map_cons, List.nodup_cons] at h
    by_cases h1 : k1 = k
    · subst h1
      simpa [eraseR, keysR] using h.1
    · simp only [eraseR, if_neg h1, keysR, List.map_cons, List.mem_cons]
      rintro (h2 | h2)
      · exact h1 h2.symm
      · exact ih h.2 h2

/-! ### Concrete supervisor states used as inputs by the claim theorems -/

/-- A registry entry whose process is live and exits within the grace period. -/
def procX : ProcInfo :=
  { handle := { alive := true, exitsWithinGrace := true }
    deviceName := "Device X"
    tempConfigFile := temp_config_name "X" }

/-- Supervisor state with exactly one active simulation, for IMEI `X`. -/
def st_oneActive : SupState :=
  { registry := [("X", procX)], files := [temp_config_name "X"] }

/-- A registry entry whose process has already died (`poll()` not `None`). -/
def procDeadX : ProcInfo :=
  { handle := { alive := false, exitsWithinGrace := true }
    deviceName := "Device X"
    tempConfigFile := temp_config_name "X" }

/-- Supervisor state whose only registry entry is dead. -/
def st_oneDead : SupState :=
  { registry := [("X", procDeadX)], files := [temp_config_name "X"] }

/-- A registry entry whose process ignores `terminate()` past the grace period. -/
def procStuckY : ProcInfo :=
  { handle := { alive := true, exitsWithinGrace := false }
    deviceName := "Device Y"
    tempConfigFile := temp_config_name "Y" }

/-- Supervisor state whose only registry entry is stuck. -/
def st_oneStuck : SupState :=
  { registry := [("Y", procStuckY)], files := [temp_config_name "Y"] }

/-- A device descriptor returned by the device directory. -/
def devSeven : Device := { id := "7", name := some "DevSeven" }

/-- A start request for a custom simulation with an explicitly empty waypoint
list and non-positive interval and speed. -/
def customEmptyStart : StartData :=
  { device_id := some "7", imei := some "IMEI7", simulation_type := some "custom",
    update_interval := some 0, speed_kmh := some 0, path := some [] }

/-- A start request for IMEI `X`, which `st_oneActive` already runs. -/
def dataX : StartData :=
  { device_id := some "1", imei := some "X", simulation_type := some "circular" }

/-! ### C1 -/

/-- C1: the claim says `stopAll()` stops every registered run unit, leaving an
empty registry and no ephemeral files.  Evaluating the embedded `stop-all`
handler on a state with one active simulation and a request body without an
`imei` shows the code stops nothing: the nested `api_simulator_stop()` call
re-reads the stop-all request's own body, fails with `IMEI richiesto`, and the
loop only accumulates an error; the registry, the temp file and the running
process all survive, and `status()` still reports the entry. -/
theorem C1_stop_all_stops_nothing :
    api_simulator_stop_all Option.none st_oneActive
      = (0, ["Errore fermando X"], st_oneActive, [])
    ∧ (api_simulator_status st_oneActive).1 = [("X", "Device X")]
    ∧ st_oneActive.files = [temp_config_name "X"] := by
  refine ⟨by decide, by decide, by decide⟩

/-! ### C2 -/

/-- C2 counterexample: a start request with an empty custom waypoint list (and
non-positive interval and speed) does not fail with a configuration error:
`create_simulator_config` silently substitutes the built-in default path and
keeps interval `0` and speed `0`, and the start handler spawns and registers
the simulation. -/
theorem C2_cex_empty_custom_path_starts :
    (create_simulator_config customEmptyStart devSeven).devices.map SimDeviceConfig.geo
      = [GeoSpec.custom default_custom_path]
    ∧ (create_simulator_config customEmptyStart devSeven).devices.map
        SimDeviceConfig.update_interval = [0]
    ∧ (create_simulator_config customEmptyStart devSeven).devices.map
        SimDeviceConfig.speed_kmh = [0]
    ∧ (api_simulator_start customEmptyStart (some devSeven)
        (some { alive := true, exitsWithinGrace := true })
        { registry := [], files := [] }).1 = .single (.okStarted "IMEI7")
    ∧ lookupR (api_simulator_start customEmptyStart (some devSeven)
        (some { alive := true, exitsWithinGrace := true })
        { registry := [], files := [] }).2.1.registry "IMEI7"
      = some { handle := { alive := true, exitsWithinGrace := true },
               deviceName := "DevSeven", tempConfigFile := temp_config_name "IMEI7" } :=
  ⟨rfl, rfl, rfl, rfl, rfl⟩

/-- C2 (amended): start performs no configuration validation.  An empty (or
missing) custom waypoint list is silently replaced by the built-in default
5-waypoint path, the interval and speed values of the request are copied into
the config unvalidated (defaults 30 and 50 only when absent), and for any such
request with a fresh IMEI and a successful spawn the start handler succeeds
and registers an entry. -/
theorem C2_no_validation_start_succeeds :
    (∀ (data : StartData) (device : Device),
      data.simulation_type = some "custom" → data.path.getD [] = [] →
      (create_simulator_config data device).devices.map SimDeviceConfig.geo
        = [GeoSpec.custom default_custom_path]
      ∧ (create_simulator_config data device).devices.map SimDeviceConfig.update_interval
        = [data.update_interval.getD 30]
      ∧ (create_simulator_config data device).devices.map SimDeviceConfig.speed_kmh
        = [data.speed_kmh.getD 50])
    ∧ (∀ (data : StartData) (dev : Device) (h : ProcHandle) (st : SupState) (imei : String),
        truthyStr data.device_id = true → data.imei = some imei → imei ≠ "" →
        truthyStr data.simulation_type = true →
        lookupR st.registry imei = Option.none →
        (api_simulator_start data (some dev) (some h) st).1 = .single (.okStarted imei)
        ∧ lookupR (api_simulator_start data (some dev) (some h) st).2.1.registry imei
            = some { handle := h,
                     deviceName := dev.name.getD ("Device " ++ data.device_id.getD ""),
                     tempConfigFile := temp_config_name imei }) := by
  constructor
  · intro data device hty hpath
    simp only [create_simulator_config, hty, Option.getD_some, hpath]
    simp
  · intro data dev h st imei htr him hne hty hlook
    have htim : truthyStr data.imei = true := by
      rw [him]
      simpa [truthyStr] using bne_iff_ne.mpr hne
    have hgetD : data.imei.getD "" = imei := by rw [him]; rfl
    simp [api_simulator_start, htr, htim, hty, hgetD, hlook, lookupR_insertR_self]

/-- C2 amended witness: the general theorem applied to the concrete empty
custom-path request. -/
theorem C2_no_validation_witness :
    (api_simulator_start customEmptyStart (some devSeven)
        (some { alive := true, exitsWithinGrace := true })
        { registry := [], files := [] }).1 = .single (.okStarted "IMEI7") :=
  (C2_no_validation_start_succeeds.2 customEmptyStart devSeven
    { alive := true, exitsWithinGrace := true } { registry := [], files := [] }
    "IMEI7" (by decide) rfl (by decide) (by decide) rfl).1

/-! ### C5 -/

/-- C5: while an IMEI has a live registry entry, a second start request for it
is rejected with `AlreadyRunning` (HTTP 409) with no state change and no side
effects, and the registry still holds exactly one entry for that IMEI;
moreover a failed spawn never adds a registry key, and start preserves
key-uniqueness of the registry, so there is never more than one entry per key. -/
theorem C5_duplicate_start_rejected :
    (∀ (st : SupState) (data : StartData) (dev : Device) (spawn : Option ProcHandle)
        (imei : String) (p : ProcInfo),
      (keysR st.registry).Nodup →
      truthyStr data.device_id = true → data.imei = some imei → imei ≠ "" →
      truthyStr data.simulation_type = true →
      lookupR st.registry imei = some p → p.handle.alive = true →
      api_simulator_start data (some dev) spawn st
        = (.withStatus .errAlreadyRunning 409, st, [])
      ∧ countKey st.registry imei = 1)
    ∧ (∀ (st : SupState) (data : StartData) (device : Option Device) (a : String),
        a ∈ keysR (api_simulator_start data device Option.none st).2.1.registry →
        a ∈ keysR st.registry)
    ∧ (∀ (st : SupState) (data : StartData) (device : Option Device)
        (spawn : Option ProcHandle),
        (keysR st.registry).Nodup →
        (keysR (api_simulator_start data device spawn st).2.1.registry).Nodup) := by
  refine ⟨?_, ?_, ?_⟩
  · intro st data dev spawn imei p hnd htr him hne hty hlook halive
    have htim : truthyStr data.imei = true := by
      rw [him]
      simpa [truthyStr] using bne_iff_ne.mpr hne
    have hgetD : data.imei.getD "" = imei := by rw [him]; rfl
    refine ⟨?_, ?_⟩
    · simp [api_simulator_start, htr, htim, hty, hgetD, hlook, halive]
    · exact List.count_eq_one_of_mem hnd (lookupR_mem_keysR hlook)
  · intro st data device a h
    by_cases h1 : truthyStr data.device_id
    rotate_left
    · simpa [api_simulator_start, h1] using h
    by_cases h2 : truthyStr data.imei
    rotate_left
    · simpa [api_simulator_start, h1, h2] using h
    by_cases h3 : truthyStr data.simulation_type
    rotate_left
    · simpa [api_simulator_start, h1, h2, h3] using h
    match device with
    | Option.none => simpa [api_simulator_start, h1, h2, h3] using h
    | some dev =>
      rcases hl : lookupR st.registry (data.imei.getD "") with _ | p
      · simp only [api_simulator_start, h1, h2, h3, hl, not_true, if_false,
          Bool.not_eq_true] at h
        simpa using h
      · by_cases ha : p.handle.alive
        · simp only [api_simulator_start, h1, h2, h3, hl, ha, not_true, if_false,
            Bool.not_eq_true] at h
          simpa using h
        · simp only [api_simulator_start, h1, h2, h3, hl, ha, not_true, if_false,
            Bool.not_eq_true] at h
          have hsub := ((eraseR_sublist st.registry (data.imei.getD "")).map Prod.fst).subset
          simp only [keysR] at hsub ⊢
          exact hsub (by simpa [keysR] using h)
  · intro st data device spawn hnd
    by_cases h1 : truthyStr data.device_id
    rotate_left
    · simpa [api_simulator_start, h1] using hnd
    by_cases h2 : truthyStr data.imei
    rotate_left
    · simpa [api_simulator_start, h1, h2] using hnd
    by_cases h3 : truthyStr data.simulation_type
    rotate_left
    · simpa [api_simulator_start, h1, h2, h3] using hnd
    match device with
    | Option.none => simpa [api_simulator_start, h1, h2, h3] using hnd
    | some dev =>
      have hernd : (keysR (eraseR st.registry (data.imei.getD ""))).Nodup :=
        ((eraseR_sublist st.registry (data.imei.getD "")).map Prod.fst).nodup hnd
      rcases hl : lookupR st.registry (data.imei.getD "") with _ | p
      · match spawn with
        | Option.none => simpa [api_simulator_start, h1, h2, h3, hl] using hnd
        | some hh =>
          simp only [api_simulator_start, h1, h2, h3, hl, not_true, if_false]
          simpa using keysR_insertR_nodup hnd
      · by_cases ha : p.handle.alive
        · simpa [api_simulator_start, h1, h2, h3, hl, ha] using hnd
        · match spawn with
          | Option.none => simpa [api_simulator_start, h1, h2, h3, hl, ha] using hernd
          | some hh =>
            simp only [api_simulator_start, h1, h2, h3, hl, ha, not_true, if_false,
              Bool.not_eq_true]
            simpa using keysR_insertR_nodup hernd

/-- C5 witness: the duplicate-rejection branch applied to the concrete state
with one live simulation for IMEI `X`. -/
theorem C5_duplicate_start_rejected_witness :
    api_simulator_start dataX (some devSeven) Option.none st_oneActive
      = (.withStatus .errAlreadyRunning 409, st_oneActive, [])
    ∧ countKey st_oneActive.registry "X" = 1 :=
  C5_duplicate_start_rejected.1 st_oneActive dataX devSeven Option.none "X" procX
    (by decide) (by decide) rfl (by decide) (by decide) rfl rfl

/-! ### C6 -/

/-- C6 counterexample: an IMEI whose registry entry's process has already died
has no *live* entry, yet `stop` does not return `NotFound` and does not leave
the registry unchanged: it returns success and removes the entry and the temp
file (the handler checks only `imei in simulator_processes`, never liveness). -/
theorem C6_cex_dead_entry_stopped :
    procDeadX.handle.alive = false
    ∧ api_simulator_stop (some "X") st_oneDead
        = (.single (.okStopped "Device X"), { registry := [], files := [] },
           [.terminate "X", .waitGrace 5, .removeFile (temp_config_name "X")]) :=
  ⟨rfl, by decide⟩

/-- C6 (amended): a missing or *empty* (Python-falsy) imei is rejected with
400 `IMEI richiesto` before any registry lookup; for a nonempty imei, `stop`
returns `NotFound` and leaves the state unchanged iff the imei has no registry
entry at all (liveness is not consulted); for a nonempty imei with an entry —
live or dead — it terminates the process, waits the 5-second grace period,
escalates to a forced kill exactly when the process does not exit within the
grace period, and always removes the registry entry and the ephemeral config
file before returning success. -/
theorem C6_stop_semantics :
    (∀ st : SupState,
      api_simulator_stop Option.none st = (.withStatus .errImeiRequired 400, st, [])
      ∧ api_simulator_stop (some "") st = (.withStatus .errImeiRequired 400, st, []))
    ∧ (∀ (st : SupState) (imei : String), imei ≠ "" →
        lookupR st.registry imei = Option.none →
        api_simulator_stop (some imei) st = (.withStatus .errNotFound 404, st, []))
    ∧ (∀ (st : SupState) (imei : String) (p : ProcInfo), imei ≠ "" →
        lookupR st.registry imei = some p →
        (keysR st.registry).Nodup → st.files.Nodup → p.tempConfigFile ≠ "" →
        (api_simulator_stop (some imei) st).1 = .single (.okStopped p.deviceName)
        ∧ (api_simulator_stop (some imei) st).2.1.registry = eraseR st.registry imei
        ∧ imei ∉ keysR (api_simulator_stop (some imei) st).2.1.registry
        ∧ p.tempConfigFile ∉ (api_simulator_stop (some imei) st).2.1.files
        ∧ SupEvent.terminate imei ∈ (api_simulator_stop (some imei) st).2.2
        ∧ SupEvent.waitGrace 5 ∈ (api_simulator_stop (some imei) st).2.2
        ∧ (SupEvent.kill imei ∈ (api_simulator_stop (some imei) st).2.2
            ↔ p.handle.exitsWithinGrace = false)) := by
  refine ⟨?_, ?_, ?_⟩
  · intro st
    exact ⟨by simp [api_simulator_stop, truthyStr], by simp [api_simulator_stop, truthyStr]⟩
  · intro st imei hne hlook
    have ht : truthyStr (some imei) = true := by
      simpa [truthyStr] using bne_iff_ne.mpr hne
    simp [api_simulator_stop, ht, hlook]
  · intro st imei p hne hlook hndk hndf htf
    have ht : truthyStr (some imei) = true := by
      simpa [truthyStr] using bne_iff_ne.mpr hne
    refine ⟨?_, ?_, ?_, ?_, ?_, ?_, ?_⟩
    · simp [api_simulator_stop, ht, hlook]
    · simp [api_simulator_stop, ht, hlook]
    · simpa [api_simulator_stop, ht, hlook] using not_mem_keysR_eraseR hndk
    · by_cases hmem : st.files.contains p.tempConfigFile
      · simp only [api_simulator_stop, ht, hlook, hmem, Option.getD_some, bne_iff_ne,
          ne_eq, htf, not_true, not_false_iff, Bool.and_true, Bool.true_and, if_true,
          if_false]
        simpa using hndf.not_mem_erase
      · have hout : p.tempConfigFile ∉ st.files := by
          simpa using hmem
        simp only [api_simulator_stop, ht, hlook, hmem, Option.getD_some, not_true,
          Bool.and_false, if_false]
        simpa using hout
    · rcases hg : p.handle.exitsWithinGrace <;>
        simp [api_simulator_stop, ht, hlook, hg]
    · rcases hg : p.handle.exitsWithinGrace <;>
        simp [api_simulator_stop, ht, hlook, hg]
    · rcases hg : p.handle.exitsWithinGrace <;>
        simp [api_simulator_stop, ht, hlook, hg]

/-- C6 amended witness: the entry-present branch applied to the concrete state
whose only process ignores the grace period, so the kill escalation fires. -/
theorem C6_stop_semantics_witness :
    (api_simulator_stop (some "Y") st_oneStuck).1 = .single (.okStopped "Device Y")
    ∧ (SupEvent.kill "Y" ∈ (api_simulator_stop (some "Y") st_oneStuck).2.2
        ↔ procStuckY.handle.exitsWithinGrace = false) :=
  ⟨(C6_stop_semantics.2.2 st_oneStuck "Y" procStuckY (by decide) rfl (by decide)
      (by decide) (by decide)).1,
   (C6_stop_semantics.2.2 st_oneStuck "Y" procStuckY (by decide) rfl (by decide)
      (by decide) (by decide)).2.2.2.2.2.2⟩

/-! ### C3 -/

/-- C3 counterexample: at segment distance 27 km, speed 3600 km/h and interval
10 s the traversal takes 2.7 ticks; the code's `int` truncation
(`device_simulator.py` 278) yields 2 steps where the claimed `round` formula
yields 3. -/
theorem C3_cex_trunc_vs_round :
    stepsNeededE (27:ℝ) 3600 10 = .ok 2
    ∧ steps_spec_rounded (27:ℝ) 3600 10 = 3 := by
  constructor
  · have h3 : (27:ℝ)/3600*3600/10 = 27/10 := by norm_num
    norm_num [stepsNeededE, pydiv, h3, pyTrunc]
  · have h3 : (27:ℝ)/3600*3600/10 = 27/10 := by norm_num
    norm_num [steps_spec_rounded, h3, pyRoundInt]

/-- C3 (amended): the movement loop's tick count is
`steps = max(1, int((segmentDistance / targetSpeedKmh * 3600) / reportingIntervalSeconds))`
with Python `int` truncation toward zero, not the claimed `round`; for nonzero
speed and interval the loop's checked computation never fails and equals this
closed form. -/
theorem C3_steps_formula (d v iv : ℝ) (hv : v ≠ 0) (hiv : iv ≠ 0) :
    stepsNeededE d v iv = .ok (max 1 (pyTrunc (d / v * 3600 / iv))) := by
  simp [stepsNeededE, pydiv, hv, hiv]

/-- C3 amended witness. -/
theorem C3_steps_formula_witness :
    stepsNeededE (27:ℝ) 3600 10 = .ok (max 1 (pyTrunc ((27:ℝ) / 3600 * 3600 / 10))) :=
  C3_steps_formula 27 3600 10 (by norm_num) (by norm_num)

/-! ### C4 -/

/-- C4 counterexample: the ingestion endpoint answering HTTP 204 — a 2xx
status — is counted as a failure: the code tests `status_code == 200`
(`device_simulator.py` 229), not the 2xx class. -/
theorem C4_cex_204_is_failure :
    (send_position_to_traccar cfgR stR0 0 0 100 0 50 0 (.response 204)).1 = false
    ∧ (send_position_to_traccar cfgR stR0 0 0 100 0 50 0 (.response 204)).2.1.packets_failed
        = stR0.packets_failed + 1
    ∧ (200:ℤ) ≤ 204 ∧ (204:ℤ) < 300 := by
  refine ⟨?_, ?_, by norm_num, by norm_num⟩
  · norm_num [send_position_to_traccar]
  · norm_num [send_position_to_traccar]

/-- C4 (amended): the telemetry report returns true iff the endpoint answers
exactly HTTP 200 (any other status — including other 2xx codes — and any
network exception yield false); it increments exactly one of the two counters
accordingly, and every branch returns normally, so no exception escapes to the
caller. -/
theorem C4_report_success_iff_200 (cfg : EngineConfig ℝ) (st : SimState ℝ)
    (lat lng altitude course speed : ℝ) (ts : ℤ) (outcome : HttpOutcome) :
    ((send_position_to_traccar cfg st lat lng altitude course speed ts outcome).1 = true
      ↔ outcome = .response 200)
    ∧ (send_position_to_traccar cfg st lat lng altitude course speed ts outcome).2.1
      = (if outcome = .response 200
         then { st with packets_sent := st.packets_sent + 1 }
         else { st with packets_failed := st.packets_failed + 1 }) := by
  rcases outcome with s | _
  · by_cases h : s = 200 <;> simp [send_position_to_traccar, h]
  · simp [send_position_to_traccar]

/-! ### C7 -/

/-- C7: the circular generator yields exactly `N+1` waypoints, waypoint `i`
lies at angle `2*pi*i/N` around the center with latitude scale `r/111.32` and
longitude scale `r/(111.32*cos(center latitude in radians))`, and the path is
a closed loop: `path[0] = path[N]`. -/
theorem C7_circular_path (clat clng r : ℝ) (N : ℕ) (hN : 1 ≤ N) :
    (generate_circular_pathR clat clng r N).length = N + 1
    ∧ (∀ i : ℕ, i < N + 1 →
        (generate_circular_pathR clat clng r N)[i]? =
          some (clat + r / (11132 / 100) * Real.cos (2 * Real.pi * i / N),
                clng + r / ((11132 / 100) * Real.cos (clat * Real.pi / 180))
                  * Real.sin (2 * Real.pi * i / N)))
    ∧ (generate_circular_pathR clat clng r N)[0]?
        = (generate_circular_pathR clat clng r N)[N]? := by
  have hget : ∀ i : ℕ, i < N + 1 →
      (generate_circular_pathR clat clng r N)[i]? =
        some (clat + r / (11132 / 100) * Real.cos (2 * Real.pi * i / N),
              clng + r / ((11132 / 100) * Real.cos (clat * Real.pi / 180))
                * Real.sin (2 * Real.pi * i / N)) := by
    intro i hi
    simp [generate_circular_pathR, generate_circular_path, List.getElem?_map,
      List.getElem?_range, hi]
  refine ⟨by simp [generate_circular_pathR, generate_circular_path], hget, ?_⟩
  have hN0 : (N:ℝ) ≠ 0 := Nat.cast_ne_zero.mpr (by omega)
  rw [hget 0 (by omega), hget N (by omega)]
  have e2 : 2 * Real.pi * (N:ℝ) / N = 2 * Real.pi := by field_simp
  norm_num [e2, Real.cos_two_pi, Real.sin_two_pi]

/-- C7 witness: the scenario of the specification (20 points). -/
theorem C7_circular_path_witness :
    (generate_circular_pathR 45.4642 9.19 2 20).length = 20 + 1
    ∧ (generate_circular_pathR 45.4642 9.19 2 20)[0]?
        = (generate_circular_pathR 45.4642 9.19 2 20)[20]? :=
  ⟨(C7_circular_path 45.4642 9.19 2 20 (by norm_num)).1,
   (C7_circular_path 45.4642 9.19 2 20 (by norm_num)).2.2⟩

/-! ### C9 -/

lemma pymod_bounds (t m : ℝ) (hm : 0 < m) : 0 ≤ pymod t m ∧ pymod t m < m := by
  have hmt : m * (t / m) = t := by field_simp
  have key : pymod t m = m * Int.fract (t / m) := by
    rw [pymod, Int.fract, mul_sub, hmt]
  have h1 := Int.fract_nonneg (t / m)
  have h2 := Int.fract_lt_one (t / m)
  constructor
  · rw [key]
    exact mul_nonneg hm.le h1
  · rw [key]
    nlinarith

lemma atan2R_zero : atan2R 0 0 = 0 := by
  rw [atan2R]
  have h : (⟨0, 0⟩ : ℂ) = 0 := Complex.ext rfl rfl
  rw [h, Complex.arg_zero]

/-- C9: `calculate_bearing` always returns a value in `[0, 360)`, and on the
degenerate input `p1 = p2` it returns the defined value `0` (via
`atan2(0, 0) = 0`) rather than failing. -/
theorem C9_bearing_range (lat1 lng1 lat2 lng2 : ℝ) :
    (0 ≤ calculate_bearingR lat1 lng1 lat2 lng2
      ∧ calculate_bearingR lat1 lng1 lat2 lng2 < 360)
    ∧ calculate_bearingR lat1 lng1 lat1 lng1 = 0 := by
  constructor
  · simp only [calculate_bearingR, calculate_bearing]
    exact pymod_bounds _ 360 (by norm_num)
  · simp only [calculate_bearingR, calculate_bearing, sub_self, zero_mul, zero_div,
      Real.sin_zero, Real.cos_zero, mul_one]
    have hx : Real.cos (lat1 * Real.pi / 180) * Real.sin (lat1 * Real.pi / 180)
        - Real.sin (lat1 * Real.pi / 180) * Real.cos (lat1 * Real.pi / 180) = 0 := by
      ring
    rw [hx, atan2R_zero]
    norm_num [pymod]

/-! ### C8 -/

/-- C8 counterexample: a step whose telemetry send fails (network error) does
not update the SimulationState position or the distance accumulator — only the
failure counter: starting from position (0,0) on the segment (1,1)-(2,2) at
step 0 the sample's latitude is 1, but after the step the state's latitude is
still 0 and the cumulative distance still 0. -/
theorem C8_cex_failed_send_no_update :
    (simStepBody calculate_bearingR cfgR ((1:ℝ), 1) (2, 2) 5 4 0 0 envFail stR0).1.current_lat
      = 0
    ∧ (interpolate_position ((1:ℝ), 1) (2, 2) ((0:ℝ) / (4:ℝ))).1 + envFail.noise_lat = 1
    ∧ (simStepBody calculate_bearingR cfgR ((1:ℝ), 1) (2, 2) 5 4 0 0 envFail stR0).1.packets_failed
      = 1
    ∧ (simStepBody calculate_bearingR cfgR ((1:ℝ), 1) (2, 2) 5 4 0 0 envFail stR0).1.total_distance
      = 0 := by
  refine ⟨?_, ?_, ?_, ?_⟩
  · simp [simStepBody, send_position_to_traccar, envFail, stR0]
  · norm_num [interpolate_position, envFail]
  · simp [simStepBody, send_position_to_traccar, envFail, stR0]
  · simp [simStepBody, send_position_to_traccar, envFail, stR0]

/-- C8 (amended): in each step of the movement loop, after the telemetry call
the engine updates the state only on success — position set to the noised
interpolated sample, course to the segment bearing, distance increased by
`segment/steps`, success counter incremented — while on a failed send only the
failure counter changes and position and distance stay put; in both cases the
step ends by sleeping for `reportingIntervalSeconds`. -/
theorem C8_step_updates (cfg : EngineConfig ℝ) (current next : ℝ × ℝ) (d : ℝ)
    (steps step : ℕ) (ts : ℤ) (env : StepEnv ℝ) (st : SimState ℝ) :
    (env.outcome = .response 200 →
      (simStepBody calculate_bearingR cfg current next d steps step ts env st).1
        = { st with
            current_lat :=
              (interpolate_position current next ((step:ℝ)/(steps:ℝ))).1 + env.noise_lat,
            current_lng :=
              (interpolate_position current next ((step:ℝ)/(steps:ℝ))).2 + env.noise_lng,
            current_altitude := st.current_altitude + env.noise_alt,
            current_course := calculate_bearingR current.1 current.2 next.1 next.2,
            total_distance := st.total_distance + d / (steps:ℝ),
            packets_sent := st.packets_sent + 1 }
      ∧ (simStepBody calculate_bearingR cfg current next d steps step ts env st).2
        = [.report true, .sleepFor cfg.update_interval])
    ∧ (env.outcome ≠ .response 200 →
      (simStepBody calculate_bearingR cfg current next d steps step ts env st).1
        = { st with packets_failed := st.packets_failed + 1 }
      ∧ (simStepBody calculate_bearingR cfg current next d steps step ts env st).2
        = [.report false, .sleepFor cfg.update_interval]) := by
  constructor
  · intro h200
    rw [simStepBody]
    rcases henv : env.outcome with s | _
    · rw [henv] at h200
      have hs : s = 200 := by
        cases h200
        rfl
      simp [send_position_to_traccar, henv, hs, interpolate_position]
    · rw [henv] at h200
      cases h200
  · intro hne
    rw [simStepBody]
    rcases henv : env.outcome with s | _
    · have hs : s ≠ 200 := by
        intro h
        apply hne
        rw [henv, h]
      simp [send_position_to_traccar, henv, hs]
    · simp [send_position_to_traccar, henv]

/-- C8 amended witness: a concrete successful step from the origin state. -/
theorem C8_step_updates_witness :
    (simStepBody calculate_bearingR cfgR ((1:ℝ), 1) (2, 2) 5 4 0 0
        { envFail with outcome := .response 200 } stR0).1.packets_sent
      = stR0.packets_sent + 1 := by
  have h := (C8_step_updates cfgR ((1:ℝ), 1) (2, 2) 5 4 0 0
    { envFail with outcome := .response 200 } stR0).1 rfl
  rw [h.1]

/-! ### C10 -/

lemma stepsNeededE_zero_speed (d iv : ℝ) :
    stepsNeededE d 0 iv = .error .zeroDivision := by
  simp [stepsNeededE, pydiv]

lemma loopIter_zero_speed (cfg : EngineConfig ℝ) (path : List (ℝ × ℝ)) (ts : ℤ)
    (envs : ℕ → StepEnv ℝ) (st : SimState ℝ)
    (hspeed : cfg.speed_kmh = 0) (hlen : 2 ≤ path.length) :
    loopIter calculate_distanceR calculate_bearingR cfg path ts envs st
      = ({ st with current_position_index :=
            if st.current_position_index ≥ path.length - 1 then 0
            else st.current_position_index },
         [.sleepFor cfg.update_interval]) := by
  have h1 : (if st.current_position_index ≥ path.length - 1 then 0
      else st.current_position_index) < path.length := by
    split_ifs <;> omega
  have h2 : (if st.current_position_index ≥ path.length - 1 then 0
      else st.current_position_index) + 1 < path.length := by
    split_ifs <;> omega
  simp only [loopIter]
  rw [List.getElem?_eq_getElem h1, List.getElem?_eq_getElem h2]
  simp only [hspeed, stepsNeededE_zero_speed]

lemma simulate_movement_iter_zero_speed (cfg : EngineConfig ℝ) (path : List (ℝ × ℝ))
    (ts : ℤ) (envs : ℕ → ℕ → StepEnv ℝ)
    (hspeed : cfg.speed_kmh = 0) (hlen : 2 ≤ path.length) :
    ∀ (n : ℕ) (st : SimState ℝ), st.is_running = true →
      (simulate_movement_iter calculate_distanceR calculate_bearingR cfg path ts
          envs n st).1.is_running = true
      ∧ (simulate_movement_iter calculate_distanceR calculate_bearingR cfg path ts
          envs n st).1.packets_sent = st.packets_sent
      ∧ (simulate_movement_iter calculate_distanceR calculate_bearingR cfg path ts
          envs n st).1.packets_failed = st.packets_failed
      ∧ (simulate_movement_iter calculate_distanceR calculate_bearingR cfg path ts
          envs n st).2 = List.replicate n (.sleepFor cfg.update_interval) := by
  intro n
  induction n with
  | zero =>
    intro st hrun
    simp [simulate_movement_iter, hrun]
  | succ m ih =>
    intro st hrun
    simp only [simulate_movement_iter, hrun, if_true]
    rw [loopIter_zero_speed cfg path ts (envs (Nat.succ m)) st hspeed hlen]
    have hrun1 : (SimState.mk st.current_lat st.current_lng st.current_altitude
        st.current_course (if st.current_position_index ≥ path.length - 1 then 0
          else st.current_position_index) st.total_distance st.packets_sent
        st.packets_failed st.is_running).is_running = true := hrun
    have h := ih { st with current_position_index :=
        if st.current_position_index ≥ path.length - 1 then 0
        else st.current_position_index } hrun
    refine ⟨h.1, h.2.1, h.2.2.1, ?_⟩
    rw [List.replicate_succ]
    simp only [List.cons_append, List.nil_append]
    rw [h.2.2.2]

/-- C10: with `targetSpeedKmh = 0` (a value the configuration admits
unchecked), the tick-count computation divides by the speed and raises
`ZeroDivisionError` on every iteration; the per-iteration handler absorbs the
error and sleeps, so after any number `n` of loop iterations the engine is
still in the running state, has sent no telemetry report at all (both counters
are unchanged), and the only observable actions are the `n` interval sleeps. -/
theorem C10_zero_speed_silent_loop (cfg : EngineConfig ℝ) (path : List (ℝ × ℝ))
    (ts : ℤ) (envs : ℕ → ℕ → StepEnv ℝ) (n : ℕ) (st : SimState ℝ)
    (hspeed : cfg.speed_kmh = 0) (hlen : 2 ≤ path.length)
    (hrun : st.is_running = true) :
    (∀ d iv : ℝ, stepsNeededE d cfg.speed_kmh iv = .error .zeroDivision)
    ∧ (simulate_movement_iter calculate_distanceR calculate_bearingR cfg path ts
        envs n st).1.is_running = true
    ∧ (simulate_movement_iter calculate_distanceR calculate_bearingR cfg path ts
        envs n st).1.packets_sent = st.packets_sent
    ∧ (simulate_movement_iter calculate_distanceR calculate_bearingR cfg path ts
        envs n st).1.packets_failed = st.packets_failed
    ∧ (simulate_movement_iter calculate_distanceR calculate_bearingR cfg path ts
        envs n st).2 = List.replicate n (.sleepFor cfg.update_interval) := by
  refine ⟨fun d iv => ?_, ?_⟩
  · rw [hspeed]
    exact stepsNeededE_zero_speed d iv
  · exact simulate_movement_iter_zero_speed cfg path ts envs hspeed hlen n st hrun

/-- C10 witness: two iterations at speed 0 leave the engine running with zero
packets and produce exactly two sleeps. -/
theorem C10_zero_speed_witness :
    (simulate_movement_iter calculate_distanceR calculate_bearingR cfgZeroSpeed pathTwo 0
        (fun _ _ => envFail) 2 stR0).1.is_running = true
    ∧ (simulate_movement_iter calculate_distanceR calculate_bearingR cfgZeroSpeed pathTwo 0
        (fun _ _ => envFail) 2 stR0).1.packets_sent = stR0.packets_sent
    ∧ (simulate_movement_iter calculate_distanceR calculate_bearingR cfgZeroSpeed pathTwo 0
        (fun _ _ => envFail) 2 stR0).2
      = List.replicate 2 (.sleepFor cfgZeroSpeed.update_interval) :=
  ⟨(C10_zero_speed_silent_loop cfgZeroSpeed pathTwo 0 (fun _ _ => envFail) 2 stR0
      rfl (by simp [pathTwo]) rfl).2.1,
   (C10_zero_speed_silent_loop cfgZeroSpeed pathTwo 0 (fun _ _ => envFail) 2 stR0
      rfl (by simp [pathTwo]) rfl).2.2.1,
   (C10_zero_speed_silent_loop cfgZeroSpeed pathTwo 0 (fun _ _ => envFail) 2 stR0
      rfl (by simp [pathTwo]) rfl).2.2.2.2⟩
